import Mathlib

/-!
Shallow embedding of the `note-push` Azure Function
(`src/functions/note-push.js`): a LINE-webhook handler that verifies an
HMAC-SHA256 signature, extracts text messages from the payload, and appends
them to a day-bucketed file in a GitHub repository using sha-based
optimistic concurrency with a bounded retry loop.

Strings that the JavaScript code manipulates are modelled as Lean `String`
(lists of characters); raw HTTP bodies, signature headers and secrets are
modelled as lists of bytes (`List Nat`, each `< 256`), matching the
`Buffer` semantics used by the verifier.  The Node `crypto` primitives
(HMAC-SHA256, base64) are embedded concretely and executably.  External
collaborators (the GitHub HTTP API, `Intl` time formatting, `JSON.parse`)
are modelled as explicit inputs: a per-attempt store behaviour, a
`TokyoParts` value, and a parse function.
-/

set_option maxRecDepth 100000

namespace NotePush

/-! ### JavaScript string primitives used by the handler -/

/-- `String.prototype.replaceAll` on character lists: replace every
non-overlapping occurrence of `pat` (left to right) by `rep`.  The fuel
argument (instantiated with the length of the scanned list, which bounds
the number of steps) keeps the recursion structural. -/
def replaceAllFuel (pat rep : List Char) : Nat → List Char → List Char
  | 0, s => s
  | _ + 1, [] => []
  | fuel + 1, c :: rest =>
    if pat ≠ [] ∧ pat.isPrefixOf (c :: rest) then
      rep ++ replaceAllFuel pat rep fuel (rest.drop (pat.length - 1))
    else
      c :: replaceAllFuel pat rep fuel rest

/-- JavaScript `s.replaceAll(pat, rep)`. -/
def jsReplaceAll (s pat rep : String) : String :=
  ⟨replaceAllFuel pat.data rep.data s.data.length s.data⟩

/-- JavaScript `s.includes(sub)` on character lists. -/
def hasSubstr (pat : List Char) : List Char → Bool
  | [] => pat.isEmpty
  | c :: rest => pat.isPrefixOf (c :: rest) || hasSubstr pat rest

/-- JavaScript `s.includes(sub)`. -/
def jsIncludes (s sub : String) : Bool :=
  hasSubstr sub.data s.data

/-- The whitespace characters stripped by `String.prototype.trim`. -/
def jsWhitespaceChar (c : Char) : Bool :=
  c = ' ' || c = '\t' || c = '\n' || c = '\r' ||
  c = '\x0b' || c = '\x0c' || c = ' ' || c = '﻿'

/-- JavaScript `s.trim()`. -/
def jsTrim (s : String) : String :=
  ⟨((s.data.dropWhile jsWhitespaceChar).reverse.dropWhile jsWhitespaceChar).reverse⟩

/-- JavaScript truthiness for an optional string value (as in
`process.env[name]` lookups): absent or empty means falsy. -/
def jsTruthy : Option String → Option String
  | none => none
  | some s => if s = "" then none else some s

/-- UTF-8 encoding of one unicode code point. -/
def utf8EncodeCodePoint (c : Nat) : List Nat :=
  if c < 128 then [c]
  else if c < 2048 then [192 + c / 64, 128 + c % 64]
  else if c < 65536 then [224 + c / 4096, 128 + c / 64 % 64, 128 + c % 64]
  else [240 + c / 262144, 128 + c / 4096 % 64, 128 + c / 64 % 64, 128 + c % 64]

/-- UTF-8 bytes of a string, as used by `Buffer.from(s)` /
`hmac.update(s, "utf8")`. -/
def utf8Bytes (s : String) : List Nat :=
  (s.data.map (fun c => utf8EncodeCodePoint c.toNat)).flatten

/-! ### SHA-256, HMAC, base64 (the Node `crypto` primitives) -/

/-- Truncation to a 32-bit word. -/
def w32 (n : Nat) : Nat := n % 4294967296

/-- 32-bit right rotation (input assumed `< 2^32`). -/
def rotr (n x : Nat) : Nat := w32 ((x >>> n) ||| (x <<< (32 - n)))

def smallSigma0 (x : Nat) : Nat := rotr 7 x ^^^ rotr 18 x ^^^ (x >>> 3)

def smallSigma1 (x : Nat) : Nat := rotr 17 x ^^^ rotr 19 x ^^^ (x >>> 10)

def bigSigma0 (x : Nat) : Nat := rotr 2 x ^^^ rotr 13 x ^^^ rotr 22 x

def bigSigma1 (x : Nat) : Nat := rotr 6 x ^^^ rotr 11 x ^^^ rotr 25 x

/-- The SHA-256 round constants (fractional parts of the cube roots of the
first 64 primes). -/
def kConst : List Nat :=
  [1116352408, 1899447441, 3049323471, 3921009573, 961987163, 1508970993,
   2453635748, 2870763221, 3624381080, 310598401, 607225278, 1426881987,
   1925078388, 2162078206, 2614888103, 3248222580, 3835390401, 4022224774,
   264347078, 604807628, 770255983, 1249150122, 1555081692, 1996064986,
   2554220882, 2821834349, 2952996808, 3210313671, 3336571891, 3584528711,
   113926993, 338241895, 666307205, 773529912, 1294757372, 1396182291,
   1695183700, 1986661051, 2177026350, 2456956037, 2730485921, 2820302411,
   3259730800, 3345764771, 3516065817, 3600352804, 4094571909, 275423344,
   430227734, 506948616, 659060556, 883997877, 958139571, 1322822218,
   1537002063, 1747873779, 1955562222, 2024104815, 2227730452, 2361852424,
   2428436474, 2756734187, 3204031479, 3329325298]

/-- SHA-256 working state: eight 32-bit words. -/
structure H8 where
  a : Nat
  b : Nat
  c : Nat
  d : Nat
  e : Nat
  f : Nat
  g : Nat
  h : Nat
deriving DecidableEq

/-- The SHA-256 initial hash value. -/
def initH : H8 :=
  ⟨1779033703, 3144134277, 1013904242, 2773480762,
   1359893119, 2600822924, 528734635, 1541459225⟩

/-- One SHA-256 compression round (`kw` is the round constant paired with
the schedule word). -/
def shaRound (st : H8) (kw : Nat × Nat) : H8 :=
  let ch := (st.e &&& st.f) ^^^ ((st.e ^^^ 4294967295) &&& st.g)
  let temp1 := w32 (st.h + bigSigma1 st.e + ch + kw.1 + kw.2)
  let maj := (st.a &&& st.b) ^^^ (st.a &&& st.c) ^^^ (st.b &&& st.c)
  let temp2 := w32 (bigSigma0 st.a + maj)
  ⟨w32 (temp1 + temp2), st.a, st.b, st.c, w32 (st.d + temp1), st.e, st.f, st.g⟩

/-- Big-endian 32-bit words from a list of bytes. -/
def bytesToWords : List Nat → List Nat
  | a :: b :: c :: d :: rest =>
    (a * 16777216 + b * 65536 + c * 256 + d) :: bytesToWords rest
  | _ => []

/-- Extend the 16-word message schedule by `n` further words. -/
def scheduleExtend : Nat → List Nat → List Nat
  | 0, ws => ws
  | n + 1, ws =>
    let i := ws.length
    scheduleExtend n
      (ws ++ [w32 (smallSigma1 (ws.getD (i - 2) 0) + ws.getD (i - 7) 0 +
                   smallSigma0 (ws.getD (i - 15) 0) + ws.getD (i - 16) 0)])

/-- The 64-word SHA-256 message schedule for one block. -/
def schedule (ws : List Nat) : List Nat := scheduleExtend 48 ws

/-- Compress one 64-byte block into the state. -/
def compress (st : H8) (block : List Nat) : H8 :=
  let fin := (kConst.zip (schedule (bytesToWords block))).foldl shaRound st
  ⟨w32 (st.a + fin.a), w32 (st.b + fin.b), w32 (st.c + fin.c),
   w32 (st.d + fin.d), w32 (st.e + fin.e), w32 (st.f + fin.f),
   w32 (st.g + fin.g), w32 (st.h + fin.h)⟩

/-- SHA-256 padding: `0x80`, zeros, then the 64-bit big-endian bit length. -/
def padMsg (msg : List Nat) : List Nat :=
  let L := msg.length
  let z := (64 - (L + 9) % 64) % 64
  msg ++ [128] ++ List.replicate z 0 ++
    (List.range 8).map (fun i => ((8 * L) >>> (8 * (7 - i))) % 256)

/-- Split a byte list into 64-byte blocks; the fuel (instantiated with the
length of the list, which bounds the number of blocks) keeps the recursion
structural. -/
def chunks64Fuel : Nat → List Nat → List (List Nat)
  | 0, _ => []
  | fuel + 1, l => if l = [] then [] else l.take 64 :: chunks64Fuel fuel (l.drop 64)

/-- Split a byte list into 64-byte blocks. -/
def chunks64 (l : List Nat) : List (List Nat) := chunks64Fuel l.length l

/-- The final SHA-256 state for a message. -/
def sha256H (msg : List Nat) : H8 :=
  (chunks64 (padMsg msg)).foldl compress initH

/-- Big-endian bytes of one 32-bit word. -/
def wordBytes (w : Nat) : List Nat :=
  [w / 16777216 % 256, w / 65536 % 256, w / 256 % 256, w % 256]

/-- SHA-256 digest (32 bytes) of a byte list. -/
def sha256 (msg : List Nat) : List Nat :=
  wordBytes (sha256H msg).a ++ wordBytes (sha256H msg).b ++
  wordBytes (sha256H msg).c ++ wordBytes (sha256H msg).d ++
  wordBytes (sha256H msg).e ++ wordBytes (sha256H msg).f ++
  wordBytes (sha256H msg).g ++ wordBytes (sha256H msg).h

/-- HMAC-SHA256 with the given key, per RFC 2104 (block size 64). -/
def hmacSha256 (key msg : List Nat) : List Nat :=
  let k0 := if 64 < key.length then sha256 key else key
  let kp := k0 ++ List.replicate (64 - k0.length) 0
  sha256 ((kp.map (fun b => b ^^^ 92)) ++ sha256 ((kp.map (fun b => b ^^^ 54)) ++ msg))

/-- The base64 alphabet. -/
def b64char (n : Nat) : Char :=
  "ABCDEFGHIJKLMNOPQRSTUVWXYZabcdefghijklmnopqrstuvwxyz0123456789+/".data.getD n 'A'

/-- Standard base64 encoding (with `=` padding) of a byte list. -/
def b64encode : List Nat → List Char
  | [] => []
  | [a] => [b64char (a / 4), b64char (a % 4 * 16), '=', '=']
  | [a, b] => [b64char (a / 4), b64char (a % 4 * 16 + b / 16), b64char (b % 16 * 4), '=']
  | a :: b :: c :: rest =>
    b64char (a / 4) :: b64char (a % 4 * 16 + b / 16) ::
    b64char (b % 16 * 4 + c / 64) :: b64char (c % 64) :: b64encode rest

/-- `crypto.createHmac("sha256", secret).update(body).digest("base64")`,
as the ASCII byte list the verifier compares buffers over. -/
def hmacB64 (body secret : List Nat) : List Nat :=
  (b64encode (hmacSha256 secret body)).map Char.toNat

/-! ### `verifyLineSignature` -/

/-- `verifyLineSignature(rawBody, signatureHeader, channelSecret)`:
returns false on an absent or empty header, recomputes the base64 HMAC of
the raw body, returns false when the buffer lengths differ, and otherwise
compares byte-for-byte (`crypto.timingSafeEqual`). -/
def verifyLineSignature (rawBody : List Nat) (signatureHeader : Option (List Nat))
    (channelSecret : List Nat) : Bool :=
  match signatureHeader with
  | none => false
  | some sig =>
    if sig = [] then false
    else
      let expected := hmacB64 rawBody channelSecret
      if expected.length = sig.length then expected == sig else false

/-! ### Time parts, path template, content helpers -/

/-- The value returned by `formatTokyoParts`: zero-padded decimal strings
for the Asia/Tokyo calendar breakdown of "now", with
`date = yyyy-mm-dd`.  The `Intl.DateTimeFormat` call that produces it is
part of the JavaScript runtime, so handlers below take a `TokyoParts`
value as an explicit input. -/
structure TokyoParts where
  yyyy : String
  yy : String
  mm : String
  dd : String
  HH : String
  MM : String
  SS : String
  date : String
deriving DecidableEq

/-- `buildNotePath(template, tokyoParts)`: substitute the five supported
placeholders, in the fixed order used by the source. -/
def buildNotePath (template : String) (t : TokyoParts) : String :=
  jsReplaceAll (jsReplaceAll (jsReplaceAll (jsReplaceAll (jsReplaceAll
    template "{yyyy}" t.yyyy) "{yy}" t.yy) "{mm}" t.mm) "{dd}" t.dd) "{date}" t.date

/-- `ensureEndsWithNewline(s)`: the empty (falsy) string becomes a lone
newline; otherwise a newline is appended only when the string does not
already end with one. -/
def ensureEndsWithNewline (s : String) : String :=
  if s = "" then "\n"
  else if s.data.getLast? = some '\n' then s else s ++ "\n"

/-! ### The LINE payload model and message extraction -/

/-- `e.message`: a message object with optional `type` and `text` fields
(absent JSON fields are `none`). -/
structure LineMessage where
  type : Option String
  text : Option String
deriving DecidableEq

/-- `e.source` with its optional `userId`. -/
structure LineSource where
  userId : Option String
deriving DecidableEq

/-- One element of `payload.events`. -/
structure LineEvent where
  type : Option String
  message : Option LineMessage
  source : Option LineSource
deriving DecidableEq

/-- A parsed webhook payload; `events = none` models a payload whose
`events` field is absent or not an array. -/
structure Payload where
  events : Option (List LineEvent)
deriving DecidableEq

/-- An extracted `{text, userId}` message. -/
structure Msg where
  text : String
  userId : Option String
deriving DecidableEq

/-- The filter `e?.type === "message" && e?.message?.type === "text"`. -/
def isTextMessageEvent (e : LineEvent) : Bool :=
  e.type == some "message" &&
    (match e.message with
     | some m => m.type == some "text"
     | none => false)

/-- The map step: `text = String(e.message.text ?? "")` and
`userId = e?.source?.userId ? String(e.source.userId) : null`. -/
def toMsg (e : LineEvent) : Msg :=
  { text := (e.message.bind (fun m => m.text)).getD ""
    userId :=
      match e.source with
      | some s => jsTruthy s.userId
      | none => none }

/-- The `textMessages` pipeline: filter text-message events, project to
`{text, userId}`, and drop messages whose trimmed text is empty. -/
def extractMessages (events : List LineEvent) : List Msg :=
  (((events.filter isTextMessageEvent).map toMsg).filter
    (fun m => 0 < (jsTrim m.text).data.length))

/-! ### Message rendering -/

/-- `m.text.replaceAll("\r\n", "\n").replaceAll("\r", "\n")`. -/
def normalizeNewlines (s : String) : String :=
  jsReplaceAll (jsReplaceAll s "\r\n" "\n") "\r" "\n"

/-- One rendered line: `- HH:MM <normalized text>`. -/
def renderLine (t : TokyoParts) (text : String) : String :=
  "- " ++ (t.HH ++ ":" ++ t.MM) ++ " " ++ normalizeNewlines text

/-- `entry = lines.join("\n") + "\n"`: the block appended in one run. -/
def buildEntry (t : TokyoParts) (msgs : List Msg) : String :=
  String.intercalate "\n" (msgs.map (fun m => renderLine t m.text)) ++ "\n"

/-! ### The remote store model and the retry loop -/

/-- The outcome the GitHub contents GET can have for one attempt:
404 (`exists:false`), success (sha and decoded content), or a non-ok
status that makes `getGitHubFile` throw. -/
inductive FetchResult where
  | notFound : FetchResult
  | found : String → String → FetchResult
  | fetchErr : Nat → String → FetchResult
deriving DecidableEq

/-- The outcome the GitHub contents PUT can have: success, or a non-ok
status/body that makes `putGitHubFile` throw. -/
inductive PutResult where
  | putOk : PutResult
  | putErr : Nat → String → PutResult
deriving DecidableEq

/-- What the remote store does on one attempt of the retry loop. -/
structure AttemptBehavior where
  fetch : FetchResult
  put : PutResult
deriving DecidableEq

/-- The arguments of one `putGitHubFile` call that the claims observe:
content, optional sha precondition, commit message. -/
structure PutCall where
  content : String
  sha : Option String
  message : String
deriving DecidableEq

/-- The message of the error thrown by `getGitHubFile` on a non-ok,
non-404 response. -/
def githubGetFailedMsg (status : Nat) (body : String) : String :=
  "GitHub GET failed (" ++ toString status ++ "): " ++ body

/-- The message of the error thrown by `putGitHubFile` on a non-ok
response. -/
def githubPutFailedMsg (status : Nat) (body : String) : String :=
  "GitHub PUT failed (" ++ toString status ++ "): " ++ body

/-- What one iteration of the retry loop did: threw while fetching, wrote
successfully, or issued a PUT that failed. -/
inductive AttemptOutcome where
  | fetchFailed : String → AttemptOutcome
  | wrote : PutCall → AttemptOutcome
  | putFailed : PutCall → String → AttemptOutcome
deriving DecidableEq

/-- The body of one `try` block of the retry loop (source lines 171-187):
fetch the document, build the next content from the same-attempt fetch
result, and issue the PUT. -/
def runAttempt (b : AttemptBehavior) (t : TokyoParts) (entry commitMsg : String) :
    AttemptOutcome :=
  match b.fetch with
  | .fetchErr status body => .fetchFailed (githubGetFailedMsg status body)
  | .notFound =>
    let call : PutCall := ⟨"# " ++ t.date ++ "\n\n" ++ entry, none, commitMsg⟩
    match b.put with
    | .putOk => .wrote call
    | .putErr status body => .putFailed call (githubPutFailedMsg status body)
  | .found sha content =>
    let call : PutCall := ⟨ensureEndsWithNewline content ++ entry, some sha, commitMsg⟩
    match b.put with
    | .putOk => .wrote call
    | .putErr status body => .putFailed call (githubPutFailedMsg status body)

/-- The PUT call an attempt issued, if its fetch did not throw. -/
def attemptPut (b : AttemptBehavior) (t : TokyoParts) (entry commitMsg : String) :
    Option PutCall :=
  match runAttempt b t entry commitMsg with
  | .fetchFailed _ => none
  | .wrote call => some call
  | .putFailed call _ => some call

/-- The error message of an attempt that failed, if any. -/
def attemptErr (o : AttemptOutcome) : Option String :=
  match o with
  | .fetchFailed msg => some msg
  | .wrote _ => none
  | .putFailed _ msg => some msg

/-- The conflict test of the catch block:
`msg.includes("(409)") || msg.includes("409")`. -/
def isConflictMsg (msg : String) : Bool :=
  jsIncludes msg "(409)" || jsIncludes msg "409"

/-- Everything the retry loop did: the per-attempt outcomes in order, the
backoff waits performed between attempts (in ms), the successful PUT call
if any, and the error of the last failed attempt (`lastErr`). -/
structure LoopTrace where
  outcomes : List AttemptOutcome
  waits : List Nat
  success : Option PutCall
  lastErr : Option String
deriving DecidableEq

/-- The retry loop from iteration `attempt`, allowed `fuel` more
iterations (the source for-loop runs attempts 1..3; a failing attempt
retries only when its error message passes the conflict test and
`attempt !== 3`, after waiting `150 * attempt` ms). -/
def retryFrom (store : Nat → AttemptBehavior) (t : TokyoParts)
    (entry commitMsg : String) : Nat → Nat → LoopTrace
  | _, 0 => ⟨[], [], none, none⟩
  | attempt, fuel + 1 =>
    match runAttempt (store attempt) t entry commitMsg with
    | .wrote call => ⟨[.wrote call], [], some call, none⟩
    | .fetchFailed msg =>
      if isConflictMsg msg ∧ attempt ≠ 3 then
        let rest := retryFrom store t entry commitMsg (attempt + 1) fuel
        ⟨.fetchFailed msg :: rest.outcomes, 150 * attempt :: rest.waits,
         rest.success, some (rest.lastErr.getD msg)⟩
      else ⟨[.fetchFailed msg], [], none, some msg⟩
    | .putFailed call msg =>
      if isConflictMsg msg ∧ attempt ≠ 3 then
        let rest := retryFrom store t entry commitMsg (attempt + 1) fuel
        ⟨.putFailed call msg :: rest.outcomes, 150 * attempt :: rest.waits,
         rest.success, some (rest.lastErr.getD msg)⟩
      else ⟨[.putFailed call msg], [], none, some msg⟩

/-- The whole retry loop: attempts start at 1, at most 3 of them. -/
def retryLoop (store : Nat → AttemptBehavior) (t : TokyoParts)
    (entry commitMsg : String) : LoopTrace :=
  retryFrom store t entry commitMsg 1 3

/-! ### The HTTP handler -/

/-- The environment variables the handler reads (`none` = unset). -/
structure Env where
  lineChannelSecret : Option String
  githubToken : Option String
  githubOwner : Option String
  githubRepo : Option String
  githubBranch : Option String
  noteFilePathTemplate : Option String

/-- `requireEnv(name)`: the value when set and nonempty, otherwise the
thrown `Missing env` error. -/
def requireEnv (name : String) (v : Option String) : Except String String :=
  match jsTruthy v with
  | some s => .ok s
  | none => .error ("Missing env: " ++ name)

/-- An inbound HTTP request: method, raw body bytes, and the
`x-line-signature` header bytes (`none` = header absent). -/
structure Request where
  method : String
  bodyBytes : List Nat
  signature : Option (List Nat)

/-- The JSON body of a handler response (fields that are absent from a
given branch of the source are `none`). -/
structure Response where
  status : Nat
  ok : Bool
  error : Option String
  detail : Option String
  appended : Option Nat
  path : Option String
  name : Option String
deriving DecidableEq

/-- Either an HTTP response, or an exception the handler let escape to the
Functions runtime. -/
inductive HandlerResult where
  | response : Response → HandlerResult
  | thrown : String → HandlerResult
deriving DecidableEq

/-- The HTTP status of a handler result, when one was produced at all. -/
def responseStatus : HandlerResult → Option Nat
  | .response r => some r.status
  | .thrown _ => none

/-- A handler run: its result together with the retry-loop trace when the
store was touched (`none` = no fetch or write was ever issued). -/
structure HandlerRun where
  result : HandlerResult
  trace : Option LoopTrace
deriving DecidableEq

/-- The `note-push` handler (source lines 112-204).  `parse` models
`JSON.parse` on the raw body (`none` = it threw), `store` models the
GitHub contents API for each attempt, and `now` models the
`formatTokyoParts()` call. -/
def runHandler (parse : List Nat → Option Payload) (env : Env)
    (store : Nat → AttemptBehavior) (now : TokyoParts) (req : Request) :
    HandlerRun :=
  if req.method = "GET" then
    ⟨.response ⟨200, true, none, none, none, none, some "note-push"⟩, none⟩
  else
    match requireEnv "LINE_CHANNEL_SECRET" env.lineChannelSecret with
    | .error m => ⟨.thrown m, none⟩
    | .ok channelSecret =>
      if verifyLineSignature req.bodyBytes req.signature (utf8Bytes channelSecret) = false then
        ⟨.response ⟨401, false, some "Invalid signature", none, none, none, none⟩, none⟩
      else
        match parse req.bodyBytes with
        | none => ⟨.response ⟨400, false, some "Invalid JSON", none, none, none, none⟩, none⟩
        | some payload =>
          let events := payload.events.getD []
          let textMessages := extractMessages events
          if textMessages.length = 0 then
            ⟨.response ⟨200, true, none, none, some 0, none, none⟩, none⟩
          else
            match requireEnv "GITHUB_TOKEN" env.githubToken with
            | .error m => ⟨.thrown m, none⟩
            | .ok _ghToken =>
              let template := (jsTruthy env.noteFilePathTemplate).getD "daily/{date}.md"
              let path := buildNotePath template now
              let entry := buildEntry now textMessages
              let commitMsg := "note: append from LINE (" ++ now.date ++ ")"
              let tr := retryLoop store now entry commitMsg
              match tr.success with
              | some _ =>
                ⟨.response ⟨200, true, none, none, some textMessages.length, some path, none⟩,
                 some tr⟩
              | none =>
                ⟨.response ⟨200, false, some "append_failed",
                   some (tr.lastErr.getD "undefined"), none, some path, none⟩,
                 some tr⟩

/-! ### Spec-side definition for the trailing-newline comparison -/

/-- The literal reading of the specification phrase "existing content
forced to end with exactly one trailing newline": strip all trailing
newlines, then append exactly one. -/
def forceSingleTrailingNewline (s : String) : String :=
  ⟨(s.data.reverse.dropWhile (fun c => c = '\n')).reverse ++ ['\n']⟩

/-! ### Helper lemmas -/

lemma sha256_ne_nil (m : List Nat) : sha256 m ≠ [] := by
  simp [sha256, wordBytes]

lemma hmacSha256_ne_nil (key msg : List Nat) : hmacSha256 key msg ≠ [] := by
  unfold hmacSha256
  exact sha256_ne_nil _

lemma b64encode_ne_nil (a : Nat) (r : List Nat) : b64encode (a :: r) ≠ [] := by
  match r with
  | [] => simp [b64encode]
  | [b] => simp [b64encode]
  | b :: c :: r2 => simp [b64encode]

lemma hmacB64_ne_nil (body secret : List Nat) : hmacB64 body secret ≠ [] := by
  unfold hmacB64
  cases h : hmacSha256 secret body with
  | nil => exact absurd h (hmacSha256_ne_nil _ _)
  | cons a r => simp [b64encode_ne_nil]

/-- The verifier accepts the base64 HMAC of the body under the secret. -/
lemma verify_self (body secret : List Nat) :
    verifyLineSignature body (some (hmacB64 body secret)) secret = true := by
  simp only [verifyLineSignature]
  rw [if_neg (hmacB64_ne_nil body secret)]
  simp

/-- The verifier rejects an absent header. -/
lemma verify_absent (body secret : List Nat) :
    verifyLineSignature body none secret = false := rfl

/-- The verifier rejects any header other than the correct signature. -/
lemma verify_wrong (body secret sig : List Nat) (h : sig ≠ hmacB64 body secret) :
    verifyLineSignature body (some sig) secret = false := by
  simp only [verifyLineSignature]
  by_cases h0 : sig = []
  · rw [if_pos h0]
  · rw [if_neg h0]
    by_cases hl : (hmacB64 body secret).length = sig.length
    · rw [if_pos hl]
      exact beq_eq_false_iff_ne.mpr (fun he => h he.symm)
    · rw [if_neg hl]

lemma hasSubstr_cons_false {pat : List Char} {c : Char} {rest : List Char}
    (h : hasSubstr pat (c :: rest) = false) :
    pat.isPrefixOf (c :: rest) = false ∧ hasSubstr pat rest = false := by
  rw [hasSubstr] at h
  exact Bool.or_eq_false_iff.mp h

/-- A replaceAll with a pattern that does not occur leaves the list
unchanged, whatever the fuel. -/
lemma replaceAllFuel_of_not_hasSubstr (pat rep : List Char) :
    ∀ (fuel : Nat) (s : List Char), hasSubstr pat s = false →
      replaceAllFuel pat rep fuel s = s
  | 0, s, _ => rfl
  | _ + 1, [], _ => rfl
  | fuel + 1, c :: rest, h => by
    obtain ⟨h1, h2⟩ := hasSubstr_cons_false h
    rw [replaceAllFuel, if_neg (by simp [h1]),
      replaceAllFuel_of_not_hasSubstr pat rep fuel rest h2]

/-- A replaceAll whose pattern does not occur in the string is the
identity. -/
lemma jsReplaceAll_of_not_includes (s pat rep : String) (h : jsIncludes s pat = false) :
    jsReplaceAll s pat rep = s := by
  unfold jsReplaceAll
  rw [replaceAllFuel_of_not_hasSubstr pat.data rep.data s.data.length s.data h]

/-- No carriage return survives a replaceAll of `"\r"` by `"\n"`, for any
fuel at least the length of the list. -/
lemma replaceCR_not_mem :
    ∀ (fuel : Nat) (l : List Char), l.length ≤ fuel →
      '\r' ∉ replaceAllFuel ['\r'] ['\n'] fuel l
  | 0, l, h => by
    have : l = [] := List.eq_nil_of_length_eq_zero (Nat.le_zero.mp h)
    subst this
    simp [replaceAllFuel]
  | fuel + 1, [], _ => by simp [replaceAllFuel]
  | fuel + 1, c :: rest, h => by
    have hr : rest.length ≤ fuel := by
      simpa using Nat.lt_succ_iff.mp (Nat.lt_of_lt_of_le (Nat.lt_succ_self _) h)
    rw [replaceAllFuel]
    by_cases hc : c = '\r'
    · rw [if_pos ⟨by simp, by simp [hc, List.isPrefixOf]⟩]
      have hd : rest.drop (List.length ['\r'] - 1) = rest := by simp
      rw [hd]
      simp [replaceCR_not_mem fuel rest hr]
    · rw [if_neg (fun hand => hc (Eq.symm (by simpa [List.isPrefixOf] using hand.2)))]
      simp [Ne.symm hc, replaceCR_not_mem fuel rest hr]

/-- `normalizeNewlines` leaves no carriage return in the string. -/
lemma normalizeNewlines_no_cr (s : String) :
    (normalizeNewlines s).data.count '\r' = 0 := by
  apply List.count_eq_zero.mpr
  intro hmem
  have h2 := replaceCR_not_mem
    (jsReplaceAll s "\r\n" "\n").data.length (jsReplaceAll s "\r\n" "\n").data le_rfl
  rw [normalizeNewlines] at hmem
  unfold jsReplaceAll at hmem
  exact h2 hmem

/-- The retry loop runs at most `fuel` attempts. -/
lemma retryFrom_outcomes_length_le (store : Nat → AttemptBehavior) (t : TokyoParts)
    (entry m : String) : ∀ (fuel a : Nat),
      (retryFrom store t entry m a fuel).outcomes.length ≤ fuel
  | 0, a => by rw [retryFrom]; simp
  | fuel + 1, a => by
    rw [retryFrom]
    cases h : runAttempt (store a) t entry m with
    | wrote call => simp
    | fetchFailed msg =>
      dsimp only
      by_cases hc : isConflictMsg msg ∧ a ≠ 3
      · rw [if_pos hc]
        simpa using retryFrom_outcomes_length_le store t entry m fuel (a + 1)
      · rw [if_neg hc]
        simp
    | putFailed call msg =>
      dsimp only
      by_cases hc : isConflictMsg msg ∧ a ≠ 3
      · rw [if_pos hc]
        simpa using retryFrom_outcomes_length_le store t entry m fuel (a + 1)
      · rw [if_neg hc]
        simp

/-! ### Sample data shared by the concrete theorems -/

/-- A fixed `TokyoParts` value: 2026-01-02, 14:03:00 JST. -/
def sampleParts : TokyoParts :=
  ⟨"2026", "26", "01", "02", "14", "03", "00", "2026-01-02"⟩

/-- A text-message event carrying `"hi"` from user `"u"`. -/
def evText : LineEvent :=
  ⟨some "message", some ⟨some "text", some "hi"⟩, some ⟨some "u"⟩⟩

/-- A second text-message event carrying `"yo"` with no source. -/
def evText2 : LineEvent :=
  ⟨some "message", some ⟨some "text", some "yo"⟩, none⟩

/-- An image-message event. -/
def evImage : LineEvent :=
  ⟨some "message", some ⟨some "image", none⟩, some ⟨some "u"⟩⟩

/-- A text-message event whose text is whitespace only. -/
def evBlank : LineEvent :=
  ⟨some "message", some ⟨some "text", some "   "⟩, some ⟨some "u"⟩⟩

/-! ### Claims -/

/-- C2: for all body bytes and secrets, verifying the body against the
base64-encoded HMAC-SHA256 of the body under the secret returns true; an
absent header is rejected; and any header different from the correct
signature (in particular one of different length, and the empty header) is
rejected.  The verifier is a total function, so it never throws. -/
theorem claim_C2 (body secret : List Nat) :
    verifyLineSignature body (some (hmacB64 body secret)) secret = true ∧
    verifyLineSignature body none secret = false ∧
    ∀ sig : List Nat, sig ≠ hmacB64 body secret →
      verifyLineSignature body (some sig) secret = false :=
  ⟨verify_self body secret, verify_absent body secret,
   fun sig h => verify_wrong body secret sig h⟩

/-- Witness for C2 at concrete inputs: the corrupted one-byte header `"1"`
differs from the correct signature of the empty body under the empty
secret and is rejected. -/
theorem claim_C2_witness :
    (([49] : List Nat) ≠ hmacB64 [] []) ∧
      verifyLineSignature [] (some [49]) [] = false :=
  ⟨by decide, (claim_C2 [] []).2.2 [49] (by decide)⟩

/-- C9: path resolution substitutes every occurrence of the five
placeholders with the corresponding `TokyoParts` field (repeated
occurrences included), leaves templates containing none of them unchanged,
and resolves the two template examples of the specification as stated. -/
theorem claim_C9 :
    buildNotePath "{yyyy}/{mm}/{dd}.md" sampleParts = "2026/01/02.md" ∧
    buildNotePath "{date}.md" sampleParts = "2026-01-02.md" ∧
    buildNotePath "{mm}-{mm}-{mm}" sampleParts = "01-01-01" ∧
    buildNotePath "{foo}/{date}.md" sampleParts = "{foo}/2026-01-02.md" ∧
    ∀ (tpl : String) (t : TokyoParts),
      jsIncludes tpl "{yyyy}" = false → jsIncludes tpl "{yy}" = false →
      jsIncludes tpl "{mm}" = false → jsIncludes tpl "{dd}" = false →
      jsIncludes tpl "{date}" = false →
      buildNotePath tpl t = tpl := by
  refine ⟨by decide, by decide, by decide, by decide, ?_⟩
  intro tpl t h1 h2 h3 h4 h5
  unfold buildNotePath
  rw [jsReplaceAll_of_not_includes tpl _ _ h1, jsReplaceAll_of_not_includes tpl _ _ h2,
    jsReplaceAll_of_not_includes tpl _ _ h3, jsReplaceAll_of_not_includes tpl _ _ h4,
    jsReplaceAll_of_not_includes tpl _ _ h5]

/-- C7: each message is rendered as the single line `- HH:MM <text>` with
CRLF and lone CR normalized to LF, the lines are joined with LF, the block
ends with a trailing newline, and the two-message example of the
specification produces exactly the stated block. -/
theorem claim_C7 :
    buildEntry sampleParts [⟨"hello", none⟩, ⟨"world", none⟩] =
      "- 14:03 hello\n- 14:03 world\n" ∧
    renderLine sampleParts "line1\r\nline2" = "- 14:03 line1\nline2" ∧
    renderLine sampleParts "a\rb" = "- 14:03 a\nb" ∧
    (∀ s : String, (normalizeNewlines s).data.count '\r' = 0) ∧
    (∀ (t : TokyoParts) (msgs : List Msg), ∃ pre : List Char,
      (buildEntry t msgs).data = pre ++ ['\n']) := by
  refine ⟨by decide, by decide, by decide, normalizeNewlines_no_cr, ?_⟩
  intro t msgs
  refine ⟨(String.intercalate "\n" (msgs.map (fun m => renderLine t m.text))).data, ?_⟩
  rw [buildEntry, String.data_append]

/-- The per-event decision the extraction pipeline makes: keep the event
(as its projected message) exactly when it is a `message` event of message
type `text` whose trimmed text is nonempty. -/
def pickMessage (e : LineEvent) : Option Msg :=
  if isTextMessageEvent e ∧ 0 < (jsTrim (toMsg e).text).data.length
  then some (toMsg e) else none

lemma extract_eq_filterMap (events : List LineEvent) :
    extractMessages events = events.filterMap pickMessage := by
  induction events with
  | nil => rfl
  | cons e es ih =>
    rw [List.filterMap_cons]
    by_cases h1 : isTextMessageEvent e = true
    · by_cases h2 : 0 < (jsTrim (toMsg e).text).data.length
      · rw [pickMessage, if_pos ⟨h1, h2⟩]
        rw [extractMessages, List.filter_cons, if_pos h1, List.map_cons, List.filter_cons,
          if_pos (decide_eq_true h2)]
        rw [← extractMessages, ih]
      · rw [pickMessage, if_neg (fun hand => h2 hand.2)]
        rw [extractMessages, List.filter_cons, if_pos h1, List.map_cons, List.filter_cons,
          if_neg (by simpa using h2)]
        rw [← extractMessages, ih]
    · rw [pickMessage, if_neg (fun hand => h1 hand.1)]
      rw [extractMessages, List.filter_cons, if_neg h1]
      rw [← extractMessages, ih]

/-- C8: event extraction keeps exactly the `message`-typed events with
`text`-typed messages and nonempty trimmed text (characterized as a
`filterMap`, which also fixes the output order to the source order), and
behaves as the specification examples state on a text+image pair, on a
whitespace-only text, and on two text events in sequence. -/
theorem claim_C8 :
    (∀ events : List LineEvent, extractMessages events = events.filterMap pickMessage) ∧
    pickMessage evImage = none ∧
    pickMessage evBlank = none ∧
    extractMessages [evText, evImage] = [⟨"hi", some "u"⟩] ∧
    extractMessages [evBlank] = [] ∧
    extractMessages [evText, evText2] = [⟨"hi", some "u"⟩, ⟨"yo", none⟩] :=
  ⟨extract_eq_filterMap, by decide, by decide, by decide, by decide, by decide⟩

/-- Counterexample to C5 as stated: when the existing content ends with
two newlines, the content written back keeps both (the code only ensures
at least one trailing newline), so it differs from the existing content
forced to end with exactly one trailing newline. -/
theorem claim_C5_counterexample :
    attemptPut ⟨.found "abc123" "x\n\n", .putOk⟩ sampleParts "- 14:03 hello\n" "m" =
      some ⟨"x\n\n" ++ "- 14:03 hello\n", some "abc123", "m"⟩ ∧
    forceSingleTrailingNewline "x\n\n" ++ "- 14:03 hello\n" = "x\n" ++ "- 14:03 hello\n" ∧
    ("x\n\n" ++ "- 14:03 hello\n" : String) ≠ "x\n" ++ "- 14:03 hello\n" :=
  ⟨by decide, by decide, by decide⟩

/-- C5 (amended): when the same-attempt fetch found the document, the PUT
issued in that attempt carries exactly
`ensureEndsWithNewline existing ++ entry` — the existing content with a
newline appended only when it lacks a trailing one — and the version token
(sha) returned by that fetch. -/
theorem claim_C5 (b : AttemptBehavior) (t : TokyoParts) (entry m sha content : String)
    (hf : b.fetch = .found sha content) :
    attemptPut b t entry m = some ⟨ensureEndsWithNewline content ++ entry, some sha, m⟩ ∧
    ensureEndsWithNewline "" = "\n" ∧
    ensureEndsWithNewline "abc" = "abc\n" ∧
    ensureEndsWithNewline "abc\n" = "abc\n" := by
  refine ⟨?_, by decide, by decide, by decide⟩
  cases hput : b.put with
  | putOk => simp only [attemptPut, runAttempt, hf, hput]
  | putErr st body => simp only [attemptPut, runAttempt, hf, hput]

/-- Witness for C5 at a concrete found document. -/
theorem claim_C5_witness :
    (AttemptBehavior.mk (.found "sha0" "abc") .putOk).fetch = .found "sha0" "abc" ∧
    (attemptPut ⟨.found "sha0" "abc", .putOk⟩ sampleParts "E" "m" =
       some ⟨ensureEndsWithNewline "abc" ++ "E", some "sha0", "m"⟩ ∧
     ensureEndsWithNewline "" = "\n" ∧
     ensureEndsWithNewline "abc" = "abc\n" ∧
     ensureEndsWithNewline "abc\n" = "abc\n") :=
  ⟨rfl, claim_C5 ⟨.found "sha0" "abc", .putOk⟩ sampleParts "E" "m" "sha0" "abc" rfl⟩

/-- C6: when the same-attempt fetch reported the document absent, the PUT
issued in that attempt carries no version token (create semantics) and its
content is the date header line followed by a blank line and the new
block. -/
theorem claim_C6 (b : AttemptBehavior) (t : TokyoParts) (entry m : String)
    (hf : b.fetch = .notFound) :
    attemptPut b t entry m = some ⟨"# " ++ t.date ++ "\n\n" ++ entry, none, m⟩ ∧
    ∃ rest : String, "# " ++ t.date ++ "\n\n" ++ entry = ("# " ++ t.date ++ "\n") ++ rest := by
  constructor
  · cases hput : b.put with
    | putOk => simp only [attemptPut, runAttempt, hf, hput]
    | putErr st body => simp only [attemptPut, runAttempt, hf, hput]
  · refine ⟨"\n" ++ entry, ?_⟩
    apply String.ext
    simp only [String.data_append, List.append_assoc]
    rfl

/-- Witness for C6 at a concrete absent document. -/
theorem claim_C6_witness :
    (AttemptBehavior.mk .notFound .putOk).fetch = .notFound ∧
    (attemptPut ⟨.notFound, .putOk⟩ sampleParts "E" "m" =
       some ⟨"# " ++ sampleParts.date ++ "\n\n" ++ "E", none, "m"⟩ ∧
     ∃ rest : String,
       "# " ++ sampleParts.date ++ "\n\n" ++ "E" =
         ("# " ++ sampleParts.date ++ "\n") ++ rest) :=
  ⟨rfl, claim_C6 ⟨.notFound, .putOk⟩ sampleParts "E" "m" rfl⟩

/-- C3: with every one of the three attempts failing with a conflict
error, the loop performs exactly 3 attempts (each consulting that
attempt's store behaviour, whose fetch feeds the written content), waits
`150 * attemptNumber` ms between attempts (150 then 300), and ends in
failure with `lastErr` carrying the error of the last attempt; and for any
store behaviour at all the loop performs at most 3 attempts. -/
theorem claim_C3 (store : Nat → AttemptBehavior) (t : TokyoParts) (entry m : String)
    (c1 c2 c3 : PutCall) (e1 e2 e3 : String)
    (h1 : runAttempt (store 1) t entry m = .putFailed c1 e1) (hc1 : isConflictMsg e1 = true)
    (h2 : runAttempt (store 2) t entry m = .putFailed c2 e2) (hc2 : isConflictMsg e2 = true)
    (h3 : runAttempt (store 3) t entry m = .putFailed c3 e3) (hc3 : isConflictMsg e3 = true) :
    retryLoop store t entry m =
      ⟨[.putFailed c1 e1, .putFailed c2 e2, .putFailed c3 e3], [150, 300], none, some e3⟩ ∧
    ∀ store2 : Nat → AttemptBehavior, (retryLoop store2 t entry m).outcomes.length ≤ 3 := by
  constructor
  · simp only [retryLoop, retryFrom, h1, h2, h3]
    simp [hc1, hc2, hc3]
  · intro store2
    exact retryFrom_outcomes_length_le store2 t entry m 3 1

/-- The all-conflict store used by the C3 witness. -/
def storeAllConflict : Nat → AttemptBehavior :=
  fun _ => ⟨.found "s" "c", .putErr 409 "conflict"⟩

/-- Witness for C3: a store that returns a PUT conflict on every attempt
drives the loop through exactly 3 attempts, waits 150 then 300 ms, and
fails with the last conflict error. -/
theorem claim_C3_witness :
    (runAttempt (storeAllConflict 1) sampleParts "E" "m" =
       .putFailed ⟨"c\nE", some "s", "m"⟩ "GitHub PUT failed (409): conflict" ∧
     runAttempt (storeAllConflict 2) sampleParts "E" "m" =
       .putFailed ⟨"c\nE", some "s", "m"⟩ "GitHub PUT failed (409): conflict" ∧
     runAttempt (storeAllConflict 3) sampleParts "E" "m" =
       .putFailed ⟨"c\nE", some "s", "m"⟩ "GitHub PUT failed (409): conflict" ∧
     isConflictMsg "GitHub PUT failed (409): conflict" = true) ∧
    retryLoop storeAllConflict sampleParts "E" "m" =
      ⟨[.putFailed ⟨"c\nE", some "s", "m"⟩ "GitHub PUT failed (409): conflict",
        .putFailed ⟨"c\nE", some "s", "m"⟩ "GitHub PUT failed (409): conflict",
        .putFailed ⟨"c\nE", some "s", "m"⟩ "GitHub PUT failed (409): conflict"],
       [150, 300], none, some "GitHub PUT failed (409): conflict"⟩ :=
  ⟨⟨by decide, by decide, by decide, by decide⟩,
   (claim_C3 storeAllConflict sampleParts "E" "m" _ _ _ _ _ _
      (by decide) (by decide) (by decide) (by decide) (by decide) (by decide)).1⟩

/-- The store used by the C4 counterexample: the first attempt fails with
a non-conflict status 500 whose body text happens to contain `409`; the
second attempt succeeds. -/
def storeTextual409 : Nat → AttemptBehavior := fun n =>
  if n = 1 then ⟨.found "s1" "c1", .putErr 500 "rate limited; see incident 409-x"⟩
  else ⟨.found "s2" "c2", .putOk⟩

/-- Counterexample to C4 as stated: a store failure whose status is 500
(not a precondition/conflict status) but whose error text contains `409`
does not stop the loop — a second attempt runs and succeeds — because the
code detects conflicts by searching the error message for the substring
`409`. -/
theorem claim_C4_counterexample :
    (retryLoop storeTextual409 sampleParts "E" "m").outcomes.length = 2 ∧
    (retryLoop storeTextual409 sampleParts "E" "m").success =
      some ⟨"c2\nE", some "s2", "m"⟩ ∧
    isConflictMsg (githubPutFailedMsg 500 "rate limited; see incident 409-x") = true :=
  ⟨by decide, by decide, by decide⟩

/-- C4 (amended): a failed attempt is retried if and only if attempts
remain and the error message passes the `409`-substring test (true for
every genuine PUT 409 conflict, whose message is
`GitHub PUT failed (409): ...`, but also for any other error whose text
contains `409`); otherwise the loop stops at once and reports the last
error. -/
theorem claim_C4 (store : Nat → AttemptBehavior) (t : TokyoParts) (entry m : String)
    (a fuel : Nat) (o : AttemptOutcome) (msg : String)
    (h : runAttempt (store a) t entry m = o) (he : attemptErr o = some msg) :
    ((isConflictMsg msg = false ∨ a = 3) →
       retryFrom store t entry m a (fuel + 1) = ⟨[o], [], none, some msg⟩) ∧
    (isConflictMsg msg = true → a ≠ 3 →
       retryFrom store t entry m a (fuel + 1) =
         ⟨o :: (retryFrom store t entry m (a + 1) fuel).outcomes,
          150 * a :: (retryFrom store t entry m (a + 1) fuel).waits,
          (retryFrom store t entry m (a + 1) fuel).success,
          some ((retryFrom store t entry m (a + 1) fuel).lastErr.getD msg)⟩) := by
  cases o with
  | wrote call => simp [attemptErr] at he
  | fetchFailed msg2 =>
    simp only [attemptErr, Option.some.injEq] at he
    subst he
    refine ⟨fun hstop => ?_, fun hcf ha => ?_⟩
    · have hneg : ¬(isConflictMsg msg2 = true ∧ a ≠ 3) := by
        rcases hstop with hf | h3
        · intro hand
          rw [hf] at hand
          exact Bool.false_ne_true hand.1
        · exact fun hand => hand.2 h3
      rw [retryFrom, h]
      dsimp only
      rw [if_neg hneg]
    · rw [retryFrom, h]
      dsimp only
      rw [if_pos ⟨hcf, ha⟩]
  | putFailed call msg2 =>
    simp only [attemptErr, Option.some.injEq] at he
    subst he
    refine ⟨fun hstop => ?_, fun hcf ha => ?_⟩
    · have hneg : ¬(isConflictMsg msg2 = true ∧ a ≠ 3) := by
        rcases hstop with hf | h3
        · intro hand
          rw [hf] at hand
          exact Bool.false_ne_true hand.1
        · exact fun hand => hand.2 h3
      rw [retryFrom, h]
      dsimp only
      rw [if_neg hneg]
    · rw [retryFrom, h]
      dsimp only
      rw [if_pos ⟨hcf, ha⟩]

/-- The plain non-conflict store used by the C4 witness. -/
def storePlain500 : Nat → AttemptBehavior :=
  fun _ => ⟨.found "s" "c", .putErr 500 "boom"⟩

/-- Witness for C4: a 500 failure with no `409` in its text stops the loop
on the first attempt. -/
theorem claim_C4_witness :
    (runAttempt (storePlain500 1) sampleParts "E" "m" =
       .putFailed ⟨"c\nE", some "s", "m"⟩ "GitHub PUT failed (500): boom" ∧
     attemptErr (.putFailed ⟨"c\nE", some "s", "m"⟩ "GitHub PUT failed (500): boom") =
       some "GitHub PUT failed (500): boom" ∧
     isConflictMsg "GitHub PUT failed (500): boom" = false) ∧
    retryFrom storePlain500 sampleParts "E" "m" 1 3 =
      ⟨[.putFailed ⟨"c\nE", some "s", "m"⟩ "GitHub PUT failed (500): boom"], [], none,
       some "GitHub PUT failed (500): boom"⟩ :=
  ⟨⟨by decide, by decide, by decide⟩,
   (claim_C4 storePlain500 sampleParts "E" "m" 1 2 _ _ (by decide) (by decide)).1
     (Or.inl (by decide))⟩

/-- Witness for C9: a template with no placeholder passes through. -/
theorem claim_C9_witness :
    (jsIncludes "notes/x.md" "{yyyy}" = false ∧ jsIncludes "notes/x.md" "{yy}" = false ∧
     jsIncludes "notes/x.md" "{mm}" = false ∧ jsIncludes "notes/x.md" "{dd}" = false ∧
     jsIncludes "notes/x.md" "{date}" = false) ∧
    buildNotePath "notes/x.md" sampleParts = "notes/x.md" :=
  ⟨⟨by decide, by decide, by decide, by decide, by decide⟩,
   claim_C9.2.2.2.2 "notes/x.md" sampleParts
     (by decide) (by decide) (by decide) (by decide) (by decide)⟩

/-- Counterexample to C1 as stated: a POST processed with the required
environment variable `LINE_CHANNEL_SECRET` unset makes `requireEnv` throw,
so the handler produces no HTTP response at all — neither 200 nor 401 nor
400 — and the exception escapes to the Functions runtime. -/
theorem claim_C1_counterexample :
    (runHandler (fun _ => none) ⟨none, none, none, none, none, none⟩
        (fun _ => ⟨.notFound, .putOk⟩) sampleParts ⟨"POST", [], none⟩).result =
      .thrown "Missing env: LINE_CHANNEL_SECRET" ∧
    responseStatus ((runHandler (fun _ => none) ⟨none, none, none, none, none, none⟩
        (fun _ => ⟨.notFound, .putOk⟩) sampleParts ⟨"POST", [], none⟩).result) = none :=
  ⟨rfl, rfl⟩

/-- C1 (amended): for every POST request, provided the required
environment variables are present and nonempty, the handler always
produces a response, whose status is 200, 401 or 400; signature failure
yields exactly the 401 `Invalid signature` response; unparseable JSON
yields exactly the 400 `Invalid JSON` response; and every store-related
failure (a retry-loop trace without a successful write) resolves to the
structured 200 response carrying `ok:false` with `error:"append_failed"`
and the last error as `detail` — no store-related failure ever escapes as
an exception. -/
theorem claim_C1 (parse : List Nat → Option Payload) (env : Env)
    (store : Nat → AttemptBehavior) (now : TokyoParts) (req : Request)
    (sec tok : String)
    (hm : req.method = "POST")
    (hs : jsTruthy env.lineChannelSecret = some sec)
    (ht : jsTruthy env.githubToken = some tok) :
    (∃ r : Response,
      (runHandler parse env store now req).result = .response r ∧
      (r.status = 200 ∨ r.status = 401 ∨ r.status = 400) ∧
      (r.status = 401 → verifyLineSignature req.bodyBytes req.signature (utf8Bytes sec) = false) ∧
      (r.status = 400 → parse req.bodyBytes = none) ∧
      (r.status = 200 → r.ok = false →
        r.error = some "append_failed" ∧ r.detail.isSome = true)) ∧
    (verifyLineSignature req.bodyBytes req.signature (utf8Bytes sec) = false →
      (runHandler parse env store now req).result =
        .response ⟨401, false, some "Invalid signature", none, none, none, none⟩) ∧
    (verifyLineSignature req.bodyBytes req.signature (utf8Bytes sec) = true →
      parse req.bodyBytes = none →
      (runHandler parse env store now req).result =
        .response ⟨400, false, some "Invalid JSON", none, none, none, none⟩) ∧
    (∀ tr : LoopTrace,
      (runHandler parse env store now req).trace = some tr →
      tr.success = none →
      (runHandler parse env store now req).result =
        .response ⟨200, false, some "append_failed", some (tr.lastErr.getD "undefined"), none,
          some (buildNotePath ((jsTruthy env.noteFilePathTemplate).getD "daily/{date}.md") now),
          none⟩) := by
  have hmg : ¬(req.method = "GET") := by rw [hm]; decide
  have hre : requireEnv "LINE_CHANNEL_SECRET" env.lineChannelSecret = .ok sec := by
    simp [requireEnv, hs]
  rw [runHandler, if_neg hmg, hre]
  dsimp only
  cases hv : verifyLineSignature req.bodyBytes req.signature (utf8Bytes sec) with
  | false =>
    rw [if_pos rfl]
    refine ⟨⟨_, rfl, Or.inr (Or.inl rfl), fun _ => rfl,
      fun h400 => by simp at h400, fun h200 => by simp at h200⟩, fun _ => rfl, ?_, ?_⟩
    · intro hv2
      exact absurd hv2 (by decide)
    · intro tr htr
      exact absurd htr (by simp)
  | true =>
    rw [if_neg (by decide)]
    cases hp : parse req.bodyBytes with
    | none =>
      dsimp only
      refine ⟨⟨_, rfl, Or.inr (Or.inr rfl), fun h401 => by simp at h401,
        fun _ => rfl, fun h200 => by simp at h200⟩, ?_, fun _ _ => rfl, ?_⟩
      · intro hv2
        exact absurd hv2 (by decide)
      · intro tr htr
        exact absurd htr (by simp)
    | some payload =>
      dsimp only
      by_cases hz : (extractMessages (payload.events.getD [])).length = 0
      · rw [if_pos hz]
        refine ⟨⟨_, rfl, Or.inl rfl, fun h401 => by simp at h401,
          fun h400 => by simp at h400, fun _ hko => by simp at hko⟩, ?_, ?_, ?_⟩
        · intro hv2
          exact absurd hv2 (by decide)
        · intro _ hp2
          exact absurd hp2 (by simp)
        · intro tr htr
          exact absurd htr (by simp)
      · rw [if_neg hz]
        have hrt : requireEnv "GITHUB_TOKEN" env.githubToken = .ok tok := by
          simp [requireEnv, ht]
        rw [hrt]
        dsimp only
        cases hsucc : (retryLoop store now (buildEntry now (extractMessages (payload.events.getD [])))
            ("note: append from LINE (" ++ now.date ++ ")")).success with
        | some call =>
          refine ⟨⟨_, rfl, Or.inl rfl, fun h401 => by simp at h401,
            fun h400 => by simp at h400, fun _ hko => by simp at hko⟩, ?_, ?_, ?_⟩
          · intro hv2
            exact absurd hv2 (by decide)
          · intro _ hp2
            exact absurd hp2 (by simp)
          · intro tr htr hnone
            have h2 : retryLoop store now (buildEntry now (extractMessages (payload.events.getD [])))
                ("note: append from LINE (" ++ now.date ++ ")") = tr := by
              simpa using htr
            rw [← h2, hsucc] at hnone
            exact Option.noConfusion hnone
        | none =>
          refine ⟨⟨_, rfl, Or.inl rfl, fun h401 => by simp at h401,
            fun h400 => by simp at h400, fun _ _ => ⟨rfl, rfl⟩⟩, ?_, ?_, ?_⟩
          · intro hv2
            exact absurd hv2 (by decide)
          · intro _ hp2
            exact absurd hp2 (by simp)
          · intro tr htr hnone
            have h2 : retryLoop store now (buildEntry now (extractMessages (payload.events.getD [])))
                ("note: append from LINE (" ++ now.date ++ ")") = tr := by
              simpa using htr
            rw [← h2]

/-- Environment with both required variables present. -/
def envBoth : Env := ⟨some "s", some "t", none, none, none, none⟩

/-- A parse function returning one text-message event. -/
def parseOneMsg : List Nat → Option Payload := fun _ => some ⟨some [evText]⟩

/-- A correctly signed POST request with empty body. -/
def reqSigned : Request := ⟨"POST", [], some (hmacB64 [] (utf8Bytes "s"))⟩

/-- Witness for C1, exercising the store-failure branch: with both
required variables present, a valid signature, one message, and a store
that always fails with a non-conflict error, the handler resolves to the
structured 200 response with `ok:false`, `error:"append_failed"` and the
last store error as detail. -/
theorem claim_C1_witness :
    (("POST" : String) = "POST" ∧ jsTruthy (some "s") = some "s" ∧
     jsTruthy (some "t") = some "t") ∧
    (runHandler parseOneMsg envBoth storePlain500 sampleParts reqSigned).result =
      .response ⟨200, false, some "append_failed", some "GitHub PUT failed (500): boom",
        none, some "daily/2026-01-02.md", none⟩ := by
  refine ⟨⟨rfl, rfl, rfl⟩, ?_⟩
  have htr : (runHandler parseOneMsg envBoth storePlain500 sampleParts reqSigned).trace =
      some (retryLoop storePlain500 sampleParts
        (buildEntry sampleParts (extractMessages ((⟨some [evText]⟩ : Payload).events.getD [])))
        ("note: append from LINE (" ++ sampleParts.date ++ ")")) := by
    rw [runHandler]
    dsimp only [reqSigned, envBoth, parseOneMsg]
    rw [if_neg (by decide)]
    have hre : requireEnv "LINE_CHANNEL_SECRET" (some "s") = .ok "s" := rfl
    rw [hre]
    dsimp only
    rw [verify_self [] (utf8Bytes "s")]
    rw [if_neg (by decide)]
    rw [if_neg (by decide)]
    have hrt : requireEnv "GITHUB_TOKEN" (some "t") = .ok "t" := rfl
    rw [hrt]
    dsimp only
    decide
  have h4 := (claim_C1 parseOneMsg envBoth storePlain500 sampleParts reqSigned "s" "t"
    rfl rfl rfl).2.2.2
  have hres := h4 (retryLoop storePlain500 sampleParts
    (buildEntry sampleParts (extractMessages ((⟨some [evText]⟩ : Payload).events.getD [])))
    ("note: append from LINE (" ++ sampleParts.date ++ ")")) htr (by decide)
  rw [hres]
  decide

/-- C10: a verified POST whose payload yields zero qualifying text
messages — in particular one whose `events` field is absent or not an
array — returns 200 with `ok:true, appended:0`, the store trace is empty
(no fetch or write was issued, so the remote document is unchanged), and
the result holds for every value of `env.githubToken` and every store
behaviour, both being universally quantified and unconstrained: the store
credential is never read in that case. -/
theorem claim_C10 (parse : List Nat → Option Payload) (env : Env)
    (store : Nat → AttemptBehavior) (now : TokyoParts) (req : Request)
    (sec : String) (payload : Payload)
    (hm : req.method = "POST")
    (hs : jsTruthy env.lineChannelSecret = some sec)
    (hv : verifyLineSignature req.bodyBytes req.signature (utf8Bytes sec) = true)
    (hp : parse req.bodyBytes = some payload)
    (hz : extractMessages (payload.events.getD []) = []) :
    runHandler parse env store now req =
      ⟨.response ⟨200, true, none, none, some 0, none, none⟩, none⟩ := by
  have hmg : ¬(req.method = "GET") := by rw [hm]; decide
  have hre : requireEnv "LINE_CHANNEL_SECRET" env.lineChannelSecret = .ok sec := by
    simp [requireEnv, hs]
  rw [runHandler, if_neg hmg, hre]
  dsimp only
  rw [hv]
  rw [if_neg (by decide)]
  rw [hp]
  dsimp only
  rw [hz]
  rfl

/-- A payload whose `events` field is absent. -/
def payloadNoEvents : Payload := ⟨none⟩

/-- Witness for C10: a correctly signed empty-events payload with the
store credential unset still yields the no-op 200 response with no store
interaction. -/
theorem claim_C10_witness :
    (("POST" : String) = "POST" ∧ jsTruthy (some "s") = some "s" ∧
     verifyLineSignature [] (some (hmacB64 [] (utf8Bytes "s"))) (utf8Bytes "s") = true ∧
     (fun _ : List Nat => some payloadNoEvents) [] = some payloadNoEvents ∧
     extractMessages (payloadNoEvents.events.getD []) = []) ∧
    runHandler (fun _ => some payloadNoEvents) ⟨some "s", none, none, none, none, none⟩
        (fun _ => ⟨.notFound, .putOk⟩) sampleParts
        ⟨"POST", [], some (hmacB64 [] (utf8Bytes "s"))⟩ =
      ⟨.response ⟨200, true, none, none, some 0, none, none⟩, none⟩ :=
  ⟨⟨rfl, rfl, verify_self [] (utf8Bytes "s"), rfl, rfl⟩,
   claim_C10 (fun _ => some payloadNoEvents) ⟨some "s", none, none, none, none, none⟩
     (fun _ => ⟨.notFound, .putOk⟩) sampleParts
     ⟨"POST", [], some (hmacB64 [] (utf8Bytes "s"))⟩ "s" payloadNoEvents
     rfl rfl (verify_self [] (utf8Bytes "s")) rfl rfl⟩

end NotePush
